import Mathlib

/-!
Verification development for the `ee_technical_task` XML-import pipeline
(`src/main.py`, `src/sparkclient.py`, `src/db.py`).

The development shallowly embeds:
* the association-derivation join of `sparkclient.PostsTags.__init__`
  (a Spark inner join on substring containment of `<TagName>` in `Posts.Tags`);
* the column-renaming step of `SparkClient.parse_xml`;
* the constraint-validation engine (pydeequ, an external library: modelled
  from the spec) together with the concrete per-table constraint suites
  declared in `Posts.check`, `Tags.check` and `PostsTags.check`;
* the `main` pipeline of `main.py` as a trace of effects against an
  abstract relational store, with the validation report as a parameter.
-/

/-- Character-list version of Java/Spark `String.startsWith`:
`startsWith pat l` is true iff `pat` is a prefix of `l`. -/
def startsWith : List Char → List Char → Bool
  | [], _ => true
  | _ :: _, [] => false
  | a :: pa, b :: l => a == b && startsWith pa l

/-- Character-list version of substring containment:
`containsSeq pat l` is true iff `pat` occurs contiguously inside `l`. -/
def containsSeq (pat : List Char) : List Char → Bool
  | [] => pat.isEmpty
  | c :: cs => startsWith pat (c :: cs) || containsSeq pat cs

/-- Spark's `Column.contains` (Java `String.contains`): `strContains s pat`
is true iff `pat` is a contiguous substring of `s`. -/
def strContains (s pat : String) : Bool := containsSeq pat.data s.data

/-- A row of the Posts dataframe, restricted to the two columns the
association join of `PostsTags.__init__` reads: `Id` and `Tags`.
`Tags = none` models a null / absent `Tags` attribute. -/
structure PostRow where
  Id : Int
  Tags : Option String
deriving DecidableEq, Repr

/-- A row of the Tags dataframe, restricted to the columns the association
join reads: `Id` and `TagName`. -/
structure TagRow where
  Id : Int
  TagName : String
deriving DecidableEq, Repr

/-- A row of the derived `posts_tags` dataframe
(`PostId`, `TagId`, `TagName`). -/
structure PTRow where
  PostId : Int
  TagId : Int
  TagName : String
deriving DecidableEq, Repr

/-- The join condition of `PostsTags.__init__`:
`f.col('p.Tags').contains(f.concat(f.lit('<'), f.col('t.TagName'), f.lit('>')))`.
In Spark SQL, `contains` applied to a null `Tags` yields null, which the
inner join treats as no match. -/
def tagMatch (p : PostRow) (t : TagRow) : Bool :=
  match p.Tags with
  | none => false
  | some s => strContains s ("<" ++ t.TagName ++ ">")

/-- The inner containment join of `PostsTags.__init__`: one output row
`(p.Id, t.Id, t.TagName)` per (post, tag) pair satisfying `tagMatch`. -/
def postsTagsJoin (posts : List PostRow) (tags : List TagRow) : List PTRow :=
  posts.flatMap fun p =>
    (tags.filter fun t => tagMatch p t).map fun t => ⟨p.Id, t.Id, t.TagName⟩

/-! ### The constraint-validation engine

The engine itself is pydeequ's `VerificationSuite` (an external library, not
part of `src/`); only the per-table constraint declarations live in
`sparkclient.py`. The engine is therefore modelled from the spec (§4.3), and
the three declared suites are transcribed from `Posts.check`, `Tags.check`
and `PostsTags.check`. -/

/-- A cell value of a dataframe column: integer or string. -/
inductive Value
  | intV (n : Int)
  | strV (s : String)
deriving DecidableEq, Repr

/-- A dataframe row: an association list from column name to value.
A column absent from the list is null in that row. -/
abbrev Row := List (String × Value)

/-- A dataframe: a list of rows. -/
abbrev Table := List Row

/-- The value of column `c` in row `r` (`none` = null). -/
def getVal (r : Row) (c : String) : Option Value :=
  (r.find? fun p => p.1 == c).map Prod.snd

/-- All values of column `c` down table `t`, nulls included. -/
def colValues (t : Table) (c : String) : List (Option Value) :=
  t.map fun r => getVal r c

/-- The non-null values of column `c` in table `t`. -/
def nonNullValues (t : Table) (c : String) : List Value :=
  (colValues t c).filterMap id

/-- Modelled from the spec: the completeness metric of
`hasCompleteness(col, predicate)` — "fraction of non-null values in `col`
over total rows". -/
def completenessFrac (t : Table) (c : String) : ℚ :=
  ((nonNullValues t c).length : ℚ) / (t.length : ℚ)

/-- Non-negativity of one value; non-numeric values are not subject to the
numeric bound. -/
def Value.isNonNeg : Value → Bool
  | intV n => decide (0 ≤ n)
  | strV _ => true

/-- Membership of one value in a fixed set of allowed string literals. -/
def Value.memOf (allowed : List String) : Value → Bool
  | strV s => allowed.contains s
  | intV _ => false

/-- Modelled from the spec (§4.3 and §9): the constraint catalogue as tagged
variants, each carrying its column name, threshold/set and message. Every
`hasSize` / `hasCompleteness` predicate used in `sparkclient.py` is a
lower-bound test (`lambda x: x >= N`), so it is carried as its bound. -/
inductive Constraint
  | hasSize (minRows : Nat)
  | isUnique (col : String)
  | isComplete (col : String)
  | isNonNegative (col : String)
  | hasCompleteness (col : String) (threshold : ℚ) (msg : String)
  | isContainedIn (col : String) (allowed : List String)
deriving DecidableEq, Repr

/-- Modelled from the spec: whether one constraint passes on a table.
`hasSize`: row count meets the bound; `isUnique`: no duplicate non-null
values; `isComplete`: no nulls; `isNonNegative`: every non-null value ≥ 0;
`hasCompleteness`: the completeness fraction meets the threshold;
`isContainedIn`: every non-null value belongs to the allowed set. -/
def constraintPasses (t : Table) : Constraint → Bool
  | .hasSize n => decide (t.length ≥ n)
  | .isUnique c => decide (nonNullValues t c).Nodup
  | .isComplete c => (colValues t c).all Option.isSome
  | .isNonNegative c => (nonNullValues t c).all Value.isNonNeg
  | .hasCompleteness c q _ => decide (completenessFrac t c ≥ q)
  | .isContainedIn c allowed => (nonNullValues t c).all (Value.memOf allowed)

/-- Display name of a constraint, for the report's `constraint` column. -/
def constraintLabel : Constraint → String
  | .hasSize n => "hasSize(>=" ++ toString n ++ ")"
  | .isUnique c => "isUnique(" ++ c ++ ")"
  | .isComplete c => "isComplete(" ++ c ++ ")"
  | .isNonNegative c => "isNonNegative(" ++ c ++ ")"
  | .hasCompleteness c _ _ => "hasCompleteness(" ++ c ++ ")"
  | .isContainedIn c _ => "isContainedIn(" ++ c ++ ")"

/-- The diagnostic message configured on a constraint (only
`hasCompleteness` carries a hint in `sparkclient.py`). -/
def constraintHint : Constraint → String
  | .hasCompleteness _ _ m => m
  | _ => ""

/-- One row of a check-results report, as produced by
`VerificationResult.checkResultsAsDataFrame`. -/
structure CheckRow where
  check_level : String
  check_name : String
  constraint : String
  constraint_status : String
  constraint_message : String
deriving DecidableEq, Repr

/-- Modelled from the spec: evaluation of a single constraint into its
report row — status `Success` or `Failure`, with the configured message
attached on failure. -/
def evalConstraint (level name : String) (t : Table) (c : Constraint) : CheckRow :=
  { check_level := level
    check_name := name
    constraint := constraintLabel c
    constraint_status := if constraintPasses t c then "Success" else "Failure"
    constraint_message := if constraintPasses t c then "" else constraintHint c }

/-- Modelled from the spec: the full-battery run of a per-table suite —
one report row per declared constraint, in declaration order, with no
short-circuit on failure. -/
def evalCheck (level name : String) (t : Table) (cs : List Constraint) : List CheckRow :=
  cs.map (evalConstraint level name t)

/-- The 26 constraints declared in `Posts.check`, in source order. -/
def postsChecks : List Constraint :=
  [ .hasSize 20000
  , .isUnique "Id"
  , .isComplete "Id"
  , .isNonNegative "Id"
  , .isNonNegative "AcceptedAnswerId"
  , .isNonNegative "AnswerCount"
  , .hasCompleteness "AnswerCount" 0.44 "It should be above 0.44!"
  , .isComplete "Body"
  , .isComplete "LastActivityDate"
  , .hasCompleteness "Title" 0.44 "It should be above 0.44!"
  , .isNonNegative "ParentId"
  , .hasCompleteness "ParentId" 0.45 "It should be above 0.45!"
  , .hasCompleteness "LastEditDate" 0.59 "It should be above 0.59!"
  , .hasCompleteness "LastEditorUserId" 0.58 "It should be above 0.58!"
  , .isContainedIn "PostTypeId" ["2", "1", "5", "4", "6", "7"]
  , .isComplete "PostTypeId"
  , .isNonNegative "ViewCount"
  , .hasCompleteness "ViewCount" 0.44 "It should be above 0.44!"
  , .isComplete "Score"
  , .hasCompleteness "Tags" 0.44 "It should be above 0.44!"
  , .hasCompleteness "OwnerUserId" 0.98 "It should be above 0.98!"
  , .isComplete "CommentCount"
  , .isNonNegative "CommentCount"
  , .isNonNegative "FavoriteCount"
  , .isContainedIn "ContentLicense" ["CC BY-SA 4.0", "CC BY-SA 3.0"]
  , .isComplete "ContentLicense" ]

/-- The 12 constraints declared in `Tags.check`, in source order. -/
def tagsChecks : List Constraint :=
  [ .hasSize 900
  , .isComplete "Id"
  , .isNonNegative "Id"
  , .isUnique "Id"
  , .isNonNegative "ExcerptPostId"
  , .hasCompleteness "ExcerptPostId" 0.77 "It should be above 0.77!"
  , .isComplete "TagName"
  , .isUnique "TagName"
  , .isNonNegative "WikiPostId"
  , .hasCompleteness "WikiPostId" 0.77 "It should be above 0.77!"
  , .isComplete "Count"
  , .isNonNegative "Count" ]

/-- The 6 constraints declared in `PostsTags.check`, in source order. -/
def postsTagsChecks : List Constraint :=
  [ .hasSize 30000
  , .isComplete "PostId"
  , .isNonNegative "PostId"
  , .isComplete "TagName"
  , .isComplete "TagId"
  , .isNonNegative "TagId" ]

/-- `Posts.check`: the Posts suite run at `Warning` level. -/
def postsCheck (t : Table) : List CheckRow :=
  evalCheck "Warning" "Posts Check" t postsChecks

/-- `Tags.check`: the Tags suite run at `Warning` level. -/
def tagsCheck (t : Table) : List CheckRow :=
  evalCheck "Warning" "Tags Check" t tagsChecks

/-- `PostsTags.check`: the posts-tags suite run at `Warning` level. -/
def postsTagsCheck (t : Table) : List CheckRow :=
  evalCheck "Warning" "Posts Tags Check" t postsTagsChecks

/-- The report aggregation of `main.py`:
`posts.check().union(tags.check()).union(posts_tags.check())`. -/
def aggregateChecks (pt tt att : Table) : List CheckRow :=
  postsCheck pt ++ tagsCheck tt ++ postsTagsCheck att

/-! ### Column renaming in `SparkClient.parse_xml`

`new_column_names = [c[1:] for c in df.columns]` followed by
`df.toDF(*new_column_names)`. -/

/-- Python `c[1:]`: the string with its first character removed
(the empty string stays empty). -/
def pySliceFromOne (s : String) : String := ⟨s.data.drop 1⟩

/-- The column renaming of `parse_xml`: every column name loses its first
character, positionally and unconditionally. -/
def parseXmlRename (cols : List String) : List String :=
  cols.map pySliceFromOne

/-! ### The `main` pipeline of `main.py`

`main` is embedded as a trace of effects. The loaded dataframes and the
aggregated validation report are parameters (they come from the external
Spark engine); the trace records, in program order, every effect `main`
performs: parquet writes, report materialisation, relational-store writes,
DDL, process exit. The relational store is an explicit state
(table name → optional contents) folded over the trace. -/

/-- One effect performed by `main`. `toSql` carries the pandas
`if_exists` mode and the rows written (opaque row identifiers). -/
inductive Event
  | loadXml (file : String)
  | deriveAssoc
  | writeParquet (name mode : String)
  | runValidation
  | connectDB
  | toSql (table ifExists : String) (rows : List Int)
  | createTable (name : String)
  | stopSpark
  | exitErr (msg : String)
  | printMsg (msg : String)
deriving DecidableEq, Repr

/-- The inputs of one run of `main`: the (opaque) relational rows of the
three entity dataframes, the relational encoding of the check report, and
the aggregated report the gate inspects. -/
structure RunData where
  postsRows : List Int
  tagsRows : List Int
  ptRows : List Int
  auditRows : List Int
  report : List CheckRow
deriving Repr

/-- The gate test of `main.py`:
`failed = checks[checks['constraint_status'] != 'Success']; len(failed) > 0`. -/
def hasFailure (checks : List CheckRow) : Bool :=
  decide ((checks.filter fun r => r.constraint_status ≠ "Success").length > 0)

/-- The abort message passed to `sys.exit` in `main.py`. -/
def failMsg : String :=
  "Data validation check has failed! See check_results table for more details."

/-- The success message printed at the end of `main.py`. -/
def doneMsg : String := "Data Loaded Successfully!"

/-- The effect trace of `main(path)`, in program order: load both XML
files, derive `posts_tags`, write the three parquet snapshots (overwrite
mode), materialise the validation report, connect to SQLite, persist
`check_results` with `if_exists='replace'`; then either abort
(`sc.stop(); sys.exit(failMsg)`) if any check failed, or create the three
entity tables and append their rows, stop Spark and print success. -/
def mainTrace (d : RunData) : List Event :=
  [ .loadXml "Posts.xml"
  , .loadXml "Tags.xml"
  , .deriveAssoc
  , .writeParquet "posts" "overwrite"
  , .writeParquet "tags" "overwrite"
  , .writeParquet "posts_tags" "overwrite"
  , .runValidation
  , .connectDB
  , .toSql "check_results" "replace" d.auditRows ] ++
  (if hasFailure d.report then
    [ .stopSpark, .exitErr failMsg ]
  else
    [ .createTable "posts"
    , .createTable "tags"
    , .createTable "posts_tags"
    , .toSql "posts" "append" d.postsRows
    , .toSql "tags" "append" d.tagsRows
    , .toSql "posts_tags" "append" d.ptRows
    , .stopSpark
    , .printMsg doneMsg ])

/-- The terminal state of a run. -/
inductive Outcome
  | committed
  | aborted (msg : String)
deriving DecidableEq, Repr

/-- How `main` terminates: `sys.exit(failMsg)` on a failed check,
normal completion otherwise. -/
def runOutcome (d : RunData) : Outcome :=
  if hasFailure d.report then .aborted failMsg else .committed

/-- Process exit code: `sys.exit` called with a string message exits
with status 1; normal completion exits with 0. -/
def exitCode : Outcome → Nat
  | .committed => 0
  | .aborted _ => 1

/-- The relational store: table name → contents (`none` = table absent). -/
def DB : Type := String → Option (List Int)

/-- Point update of the store. -/
def dbSet (db : DB) (t : String) (v : Option (List Int)) : DB :=
  fun t' => if t' = t then v else db t'

/-- Effect of one event on the relational store. `to_sql` with
`if_exists='replace'` replaces the table contents; with the default
`'append'` it appends (creating the table when absent, as pandas does).
`createTable` models `DROP TABLE IF EXISTS` followed by
`CREATE TABLE IF NOT EXISTS`, leaving an empty table. All other events do
not touch the store. -/
def applyEvent (db : DB) : Event → DB
  | .toSql t ifEx rows =>
      if ifEx = "replace" then dbSet db t (some rows)
      else dbSet db t (some ((db t).getD [] ++ rows))
  | .createTable t => dbSet db t (some [])
  | _ => db

/-- Folding a trace over an initial store state. -/
def runEvents (evs : List Event) (db : DB) : DB :=
  evs.foldl applyEvent db

/-- Number of `toSql` events against table `t` in a trace. -/
def toSqlCount (evs : List Event) (t : String) : Nat :=
  (evs.filter fun e =>
    match e with
    | .toSql t2 _ _ => t2 == t
    | _ => false).length

/-- Number of `createTable` (DDL) events against table `t` in a trace. -/
def createCount (evs : List Event) (t : String) : Nat :=
  (evs.filter fun e =>
    match e with
    | .createTable t2 => t2 == t
    | _ => false).length

/-! ### Concrete run inputs used as evaluation points -/

/-- A report row with status `Failure`. -/
def failRow : CheckRow :=
  ⟨"Warning", "Posts Check", "hasSize(>=20000)", "Failure", ""⟩

/-- A report row with status `Success`. -/
def passRow : CheckRow :=
  ⟨"Warning", "Posts Check", "isUnique(Id)", "Success", ""⟩

/-- A run whose aggregated report contains one failed check. -/
def d0fail : RunData := ⟨[], [], [], [], [passRow, failRow]⟩

/-- A run whose aggregated report is all `Success`. -/
def d0pass : RunData := ⟨[1], [2], [3], [4], [passRow]⟩

/-! ### Helper lemmas -/

/-- The gate condition of `main.py` holds iff some report row is not
`Success`. -/
theorem hasFailure_iff (cs : List CheckRow) :
    hasFailure cs = true ↔ ∃ r ∈ cs, r.constraint_status ≠ "Success" := by
  rw [hasFailure, decide_eq_true_eq, gt_iff_lt, List.length_pos_iff_exists_mem]
  simp [List.mem_filter]

/-- The gate condition fails iff every report row is `Success`. -/
theorem hasFailure_false_iff (cs : List CheckRow) :
    hasFailure cs = false ↔ ∀ r ∈ cs, r.constraint_status = "Success" := by
  rw [← Bool.not_eq_true, hasFailure_iff]
  push_neg
  simp

/-- The trace of an aborted run, explicitly. -/
theorem mainTrace_fail (d : RunData) (hf : hasFailure d.report = true) :
    mainTrace d =
      [ .loadXml "Posts.xml", .loadXml "Tags.xml", .deriveAssoc
      , .writeParquet "posts" "overwrite", .writeParquet "tags" "overwrite"
      , .writeParquet "posts_tags" "overwrite", .runValidation, .connectDB
      , .toSql "check_results" "replace" d.auditRows
      , .stopSpark, .exitErr failMsg ] := by
  simp [mainTrace, hf]

/-- The trace of a committed run, explicitly. -/
theorem mainTrace_pass (d : RunData) (hf : hasFailure d.report = false) :
    mainTrace d =
      [ .loadXml "Posts.xml", .loadXml "Tags.xml", .deriveAssoc
      , .writeParquet "posts" "overwrite", .writeParquet "tags" "overwrite"
      , .writeParquet "posts_tags" "overwrite", .runValidation, .connectDB
      , .toSql "check_results" "replace" d.auditRows
      , .createTable "posts", .createTable "tags", .createTable "posts_tags"
      , .toSql "posts" "append" d.postsRows
      , .toSql "tags" "append" d.tagsRows
      , .toSql "posts_tags" "append" d.ptRows
      , .stopSpark, .printMsg doneMsg ] := by
  simp [mainTrace, hf]

/-! ### Claim theorems -/

/-- C1 — Commit gating: on an aggregated report with any non-`Success`
row, the run persists `check_results` once, writes none of the three
entity tables, and terminates with a non-zero, user-visible failure whose
message names `check_results`; on an all-`Success` report, all four
tables are persisted exactly once each. -/
theorem commit_gating (d : RunData) :
    ((∃ r ∈ d.report, r.constraint_status ≠ "Success") →
      toSqlCount (mainTrace d) "check_results" = 1 ∧
      toSqlCount (mainTrace d) "posts" = 0 ∧
      toSqlCount (mainTrace d) "tags" = 0 ∧
      toSqlCount (mainTrace d) "posts_tags" = 0 ∧
      runOutcome d = .aborted failMsg ∧
      exitCode (runOutcome d) ≠ 0 ∧
      strContains failMsg "check_results" = true) ∧
    ((∀ r ∈ d.report, r.constraint_status = "Success") →
      toSqlCount (mainTrace d) "check_results" = 1 ∧
      toSqlCount (mainTrace d) "posts" = 1 ∧
      toSqlCount (mainTrace d) "tags" = 1 ∧
      toSqlCount (mainTrace d) "posts_tags" = 1 ∧
      runOutcome d = .committed) := by
  constructor
  · intro h
    have hf : hasFailure d.report = true := (hasFailure_iff _).2 h
    rw [mainTrace_fail d hf]
    refine ⟨rfl, rfl, rfl, rfl, ?_, ?_, by decide⟩
    · rw [runOutcome, hf]; rfl
    · rw [runOutcome, hf]; decide
  · intro h
    have hf : hasFailure d.report = false := (hasFailure_false_iff _).2 h
    rw [mainTrace_pass d hf]
    refine ⟨rfl, rfl, rfl, rfl, ?_⟩
    rw [runOutcome, hf]; rfl

/-- Witness for `commit_gating` at the concrete runs `d0fail` and
`d0pass`. -/
theorem commit_gating_witness :
    (toSqlCount (mainTrace d0fail) "posts" = 0 ∧
      runOutcome d0fail = .aborted failMsg) ∧
    (toSqlCount (mainTrace d0pass) "posts" = 1 ∧
      runOutcome d0pass = .committed) :=
  ⟨⟨((commit_gating d0fail).1 (by decide)).2.1,
    ((commit_gating d0fail).1 (by decide)).2.2.2.2.1⟩,
   ⟨((commit_gating d0pass).2 (by decide)).2.1,
    ((commit_gating d0pass).2 (by decide)).2.2.2.2⟩⟩

/-- C7 — Abort atomicity: on an aborted run the relational store's three
entity tables are left exactly in their prior state (for every prior
store state), the abort message names the audit table, and, over every
run, the entity tables are written either all zero times or all exactly
once (no partial commit). -/
theorem abort_atomicity (d : RunData) (db0 : DB) :
    ((∃ r ∈ d.report, r.constraint_status ≠ "Success") →
      runEvents (mainTrace d) db0 "posts" = db0 "posts" ∧
      runEvents (mainTrace d) db0 "tags" = db0 "tags" ∧
      runEvents (mainTrace d) db0 "posts_tags" = db0 "posts_tags" ∧
      runOutcome d = .aborted failMsg ∧
      strContains failMsg "check_results" = true) ∧
    ((toSqlCount (mainTrace d) "posts" = 0 ∧
      toSqlCount (mainTrace d) "tags" = 0 ∧
      toSqlCount (mainTrace d) "posts_tags" = 0) ∨
     (toSqlCount (mainTrace d) "posts" = 1 ∧
      toSqlCount (mainTrace d) "tags" = 1 ∧
      toSqlCount (mainTrace d) "posts_tags" = 1)) := by
  constructor
  · intro h
    have hf : hasFailure d.report = true := (hasFailure_iff _).2 h
    rw [mainTrace_fail d hf]
    refine ⟨rfl, rfl, rfl, ?_, by decide⟩
    rw [runOutcome, hf]; rfl
  · cases hf : hasFailure d.report
    · right
      rw [mainTrace_pass d hf]
      exact ⟨rfl, rfl, rfl⟩
    · left
      rw [mainTrace_fail d hf]
      exact ⟨rfl, rfl, rfl⟩

/-- Witness for `abort_atomicity` at the concrete aborted run `d0fail`
and a concrete prior store state. -/
theorem abort_atomicity_witness :
    runEvents (mainTrace d0fail) (fun _ => some [7]) "posts" =
      (fun _ : String => some [7]) "posts" :=
  ((abort_atomicity d0fail (fun _ => some [7])).1 (by decide)).1

/-- C10 — Snapshot writes precede validation: the three parquet snapshot
writes (overwrite mode) occur before the validation report is
materialised, on every run; hence on an aborted run the snapshots have
already been overwritten even though the outcome is `aborted`. -/
theorem snapshots_before_validation (d : RunData) :
    (mainTrace d).take 7 =
      [ .loadXml "Posts.xml", .loadXml "Tags.xml", .deriveAssoc
      , .writeParquet "posts" "overwrite", .writeParquet "tags" "overwrite"
      , .writeParquet "posts_tags" "overwrite", .runValidation ] ∧
    ((∃ r ∈ d.report, r.constraint_status ≠ "Success") →
      runOutcome d = .aborted failMsg ∧
      Event.writeParquet "posts" "overwrite" ∈ mainTrace d ∧
      Event.writeParquet "tags" "overwrite" ∈ mainTrace d ∧
      Event.writeParquet "posts_tags" "overwrite" ∈ mainTrace d) := by
  constructor
  · rw [mainTrace]; rfl
  · intro h
    have hf : hasFailure d.report = true := (hasFailure_iff _).2 h
    rw [mainTrace_fail d hf, runOutcome, hf]
    refine ⟨rfl, ?_, ?_, ?_⟩ <;> simp

/-- Witness for `snapshots_before_validation` at the concrete aborted
run `d0fail`. -/
theorem snapshots_before_validation_witness :
    runOutcome d0fail = .aborted failMsg ∧
    Event.writeParquet "posts" "overwrite" ∈ mainTrace d0fail :=
  ⟨((snapshots_before_validation d0fail).2 (by decide)).1,
   ((snapshots_before_validation d0fail).2 (by decide)).2.1⟩

/-- C8 counterexample — the claim says every run, including an ABORTED
one, executes the entity-table DDL; on the concrete aborted run `d0fail`
no `createTable` event occurs at all. -/
theorem schema_ddl_skipped_on_abort :
    createCount (mainTrace d0fail) "posts" = 0 ∧
    createCount (mainTrace d0fail) "tags" = 0 ∧
    createCount (mainTrace d0fail) "posts_tags" = 0 ∧
    runOutcome d0fail = .aborted failMsg := by decide

/-- C8 amended — the entity-table DDL (drop-if-exists then create) runs
only on a run whose report is all `Success`: exactly once per entity
table, after the audit table is persisted and before the entity-table
writes; an aborted run executes no entity-table DDL. -/
theorem schema_recreation_timing (d : RunData) :
    ((∀ r ∈ d.report, r.constraint_status = "Success") →
      createCount (mainTrace d) "posts" = 1 ∧
      createCount (mainTrace d) "tags" = 1 ∧
      createCount (mainTrace d) "posts_tags" = 1 ∧
      mainTrace d =
        [ .loadXml "Posts.xml", .loadXml "Tags.xml", .deriveAssoc
        , .writeParquet "posts" "overwrite", .writeParquet "tags" "overwrite"
        , .writeParquet "posts_tags" "overwrite", .runValidation, .connectDB
        , .toSql "check_results" "replace" d.auditRows
        , .createTable "posts", .createTable "tags", .createTable "posts_tags"
        , .toSql "posts" "append" d.postsRows
        , .toSql "tags" "append" d.tagsRows
        , .toSql "posts_tags" "append" d.ptRows
        , .stopSpark, .printMsg doneMsg ]) ∧
    ((∃ r ∈ d.report, r.constraint_status ≠ "Success") →
      createCount (mainTrace d) "posts" = 0 ∧
      createCount (mainTrace d) "tags" = 0 ∧
      createCount (mainTrace d) "posts_tags" = 0) := by
  constructor
  · intro h
    have hf : hasFailure d.report = false := (hasFailure_false_iff _).2 h
    rw [mainTrace_pass d hf]
    exact ⟨rfl, rfl, rfl, rfl⟩
  · intro h
    have hf : hasFailure d.report = true := (hasFailure_iff _).2 h
    rw [mainTrace_fail d hf]
    exact ⟨rfl, rfl, rfl⟩

/-- Witness for `schema_recreation_timing` at the concrete runs `d0pass`
and `d0fail`. -/
theorem schema_recreation_timing_witness :
    createCount (mainTrace d0pass) "posts" = 1 ∧
    createCount (mainTrace d0fail) "posts" = 0 :=
  ⟨((schema_recreation_timing d0pass).1 (by decide)).1,
   ((schema_recreation_timing d0fail).2 (by decide)).1⟩

/-- C9 — Unconditional prefix stripping in `parse_xml`: renaming keeps
the column count, removes the first character of every column name
positionally (`c[1:]`), and does so even for names that do not start
with the `_` marker. -/
theorem column_rename_positional (cols : List String) (i : Nat) :
    (parseXmlRename cols).length = cols.length ∧
    (parseXmlRename cols)[i]? = (cols[i]?).map (fun c => String.mk c.data.tail) ∧
    parseXmlRename ["_Id", "_Tags"] = ["Id", "Tags"] ∧
    parseXmlRename ["Id", "Tags"] = ["d", "ags"] := by
  refine ⟨by simp [parseXmlRename], ?_, by decide, by decide⟩
  have hs : ∀ c : String, pySliceFromOne c = ⟨c.data.tail⟩ := fun c => by
    rw [pySliceFromOne, List.drop_one]
  rw [parseXmlRename, List.getElem?_map]
  cases cols[i]? <;> simp [hs]

/-- The join condition holds iff `Tags` is present and contains the
delimiter-wrapped tag name. -/
theorem tagMatch_iff (p : PostRow) (t : TagRow) :
    tagMatch p t = true ↔
      ∃ s, p.Tags = some s ∧ strContains s ("<" ++ t.TagName ++ ">") = true := by
  cases hp : p.Tags <;> simp [tagMatch, hp]

/-- Membership characterisation of the containment join. -/
theorem mem_postsTagsJoin (posts : List PostRow) (tags : List TagRow) (r : PTRow) :
    r ∈ postsTagsJoin posts tags ↔
      ∃ p ∈ posts, ∃ t ∈ tags, tagMatch p t = true ∧ r = ⟨p.Id, t.Id, t.TagName⟩ := by
  simp only [postsTagsJoin, List.mem_flatMap, List.mem_map, List.mem_filter]
  constructor
  · rintro ⟨p, hp, t, ⟨ht, hm⟩, h⟩
    exact ⟨p, hp, t, ht, hm, h.symm⟩
  · rintro ⟨p, hp, t, ht, hm, h⟩
    exact ⟨p, hp, t, ⟨ht, hm⟩, h.symm⟩

/-- C2 — Association derivation: a row `(pid, tid, tn)` is in the derived
association table exactly when it arises from a post `p` and tag `t` of
the inputs with `p.Tags` present and containing the exact substring
`<` ++ `t.TagName` ++ `>`; a tag `a` produces no row for `Tags = "<ab>"`,
`Tags = "<a><b>"` with tags `{a, b}` produces exactly two rows, and an
empty or absent `Tags` value contributes no rows. -/
theorem association_derivation :
    (∀ (posts : List PostRow) (tags : List TagRow) (pid tid : Int) (tn : String),
      (⟨pid, tid, tn⟩ : PTRow) ∈ postsTagsJoin posts tags ↔
        ∃ p ∈ posts, ∃ t ∈ tags, p.Id = pid ∧ t.Id = tid ∧ t.TagName = tn ∧
          ∃ s, p.Tags = some s ∧ strContains s ("<" ++ t.TagName ++ ">") = true) ∧
    postsTagsJoin [⟨1, some "<ab>"⟩] [⟨10, "a"⟩] = [] ∧
    postsTagsJoin [⟨1, some "<a><b>"⟩] [⟨10, "a"⟩, ⟨11, "b"⟩] =
      [⟨1, 10, "a"⟩, ⟨1, 11, "b"⟩] ∧
    (∀ (tags : List TagRow) (pid : Int), postsTagsJoin [⟨pid, some ""⟩] tags = []) ∧
    (∀ (tags : List TagRow) (pid : Int), postsTagsJoin [⟨pid, none⟩] tags = []) := by
  refine ⟨?_, by decide, by decide, ?_, ?_⟩
  · intro posts tags pid tid tn
    rw [mem_postsTagsJoin]
    constructor
    · rintro ⟨p, hp, t, ht, hm, heq⟩
      obtain ⟨s, hs, hc⟩ := (tagMatch_iff p t).1 hm
      injection heq with h1 h2 h3
      exact ⟨p, hp, t, ht, h1.symm, h2.symm, h3.symm, s, hs, hc⟩
    · rintro ⟨p, hp, t, ht, h1, h2, h3, s, hs, hc⟩
      refine ⟨p, hp, t, ht, (tagMatch_iff p t).2 ⟨s, hs, hc⟩, ?_⟩
      rw [h1, h2, h3]
  · intro tags pid
    have hm : ∀ t : TagRow, tagMatch ⟨pid, some ""⟩ t = false := by
      intro t
      show strContains "" ("<" ++ t.TagName ++ ">") = false
      rw [strContains]
      have hd : ("<" ++ t.TagName ++ ">").data = '<' :: (t.TagName.data ++ ['>']) := by
        simp [String.data_append]
      rw [hd]
      rfl
    simp [postsTagsJoin, hm]
  · intro tags pid
    have hm : ∀ t : TagRow, tagMatch ⟨pid, none⟩ t = false := fun t => rfl
    simp [postsTagsJoin, hm]

/-- C6 — Referential integrity of the derived association table: every
row's `PostId` is the `Id` of some input post, its `TagId` is the `Id` of
some input tag, and its `TagName` is that tag's `TagName`. -/
theorem association_ref_integrity (posts : List PostRow) (tags : List TagRow)
    (r : PTRow) (hr : r ∈ postsTagsJoin posts tags) :
    (∃ p ∈ posts, p.Id = r.PostId) ∧
    (∃ t ∈ tags, t.Id = r.TagId ∧ t.TagName = r.TagName) := by
  rcases (mem_postsTagsJoin posts tags r).1 hr with ⟨p, hp, t, ht, _, rfl⟩
  exact ⟨⟨p, hp, rfl⟩, ⟨t, ht, rfl, rfl⟩⟩

/-- Witness for `association_ref_integrity` at a concrete join. -/
theorem association_ref_integrity_witness :
    (∃ p ∈ [PostRow.mk 1 (some "<a>")], p.Id = (PTRow.mk 1 10 "a").PostId) ∧
    (∃ t ∈ [TagRow.mk 10 "a"], t.Id = (PTRow.mk 1 10 "a").TagId ∧
      t.TagName = (PTRow.mk 1 10 "a").TagName) :=
  association_ref_integrity [⟨1, some "<a>"⟩] [⟨10, "a"⟩] ⟨1, 10, "a"⟩ (by decide)

/-- The first component of any pair of the join comes from the posts
list. -/
theorem mem_join_pairs_fst (posts : List PostRow) (tags : List TagRow) (x : Int × Int)
    (hx : x ∈ (postsTagsJoin posts tags).map fun r => (r.PostId, r.TagId)) :
    x.1 ∈ posts.map PostRow.Id := by
  simp only [List.mem_map] at hx
  rcases hx with ⟨r, hr, rfl⟩
  rcases (mem_postsTagsJoin posts tags r).1 hr with ⟨p, hp, t, _, _, rfl⟩
  exact List.mem_map.2 ⟨p, hp, rfl⟩

/-- C5 — Association uniqueness invariant: if the posts' `Id`s are
pairwise distinct and the tags' `Id`s are pairwise distinct, the derived
association table has no duplicate `(PostId, TagId)` pair. -/
theorem association_pairs_nodup (posts : List PostRow) (tags : List TagRow)
    (hp : (posts.map PostRow.Id).Nodup) (ht : (tags.map TagRow.Id).Nodup) :
    ((postsTagsJoin posts tags).map fun r => (r.PostId, r.TagId)).Nodup := by
  induction posts with
  | nil => simp [postsTagsJoin]
  | cons p ps ih =>
    rw [List.map_cons, List.nodup_cons] at hp
    obtain ⟨hpid, hps⟩ := hp
    have hsplit :
        ((postsTagsJoin (p :: ps) tags).map fun r => (r.PostId, r.TagId)) =
          ((tags.filter fun t => tagMatch p t).map fun t => ((p.Id, t.Id) : Int × Int)) ++
          ((postsTagsJoin ps tags).map fun r => (r.PostId, r.TagId)) := by
      simp [postsTagsJoin, List.map_append, List.map_map, Function.comp]
    rw [hsplit]
    have h1 : ((tags.filter fun t => tagMatch p t).map TagRow.Id).Nodup :=
      List.Nodup.sublist ((List.filter_sublist tags).map TagRow.Id) ht
    have h2 := h1.map (Prod.mk.inj_left p.Id)
    rw [List.map_map] at h2
    refine List.Nodup.append h2 (ih hps) ?_
    intro x hx1 hx2
    have hfst : x.1 = p.Id := by
      rcases List.mem_map.1 hx1 with ⟨t, _, rfl⟩
      rfl
    have hmem := mem_join_pairs_fst ps tags x hx2
    rw [hfst] at hmem
    exact hpid hmem

/-- Witness for `association_pairs_nodup` at a concrete join. -/
theorem association_pairs_nodup_witness :
    ((postsTagsJoin [⟨1, some "<a><b>"⟩, ⟨2, some "<a>"⟩] [⟨10, "a"⟩, ⟨11, "b"⟩]).map
      fun r => (r.PostId, r.TagId)).Nodup :=
  association_pairs_nodup [⟨1, some "<a><b>"⟩, ⟨2, some "<a>"⟩] [⟨10, "a"⟩, ⟨11, "b"⟩]
    (by decide) (by decide)

/-- A 10-row demo table: `Id` 0..9 all non-null, `C` all `"x"`, and `A`
non-null (value 1) in the first 4 rows only. -/
def demoTable : Table :=
  [ [("Id", .intV 0), ("C", .strV "x"), ("A", .intV 1)]
  , [("Id", .intV 1), ("C", .strV "x"), ("A", .intV 1)]
  , [("Id", .intV 2), ("C", .strV "x"), ("A", .intV 1)]
  , [("Id", .intV 3), ("C", .strV "x"), ("A", .intV 1)]
  , [("Id", .intV 4), ("C", .strV "x")]
  , [("Id", .intV 5), ("C", .strV "x")]
  , [("Id", .intV 6), ("C", .strV "x")]
  , [("Id", .intV 7), ("C", .strV "x")]
  , [("Id", .intV 8), ("C", .strV "x")]
  , [("Id", .intV 9), ("C", .strV "x")] ]

/-- The same 10-row table with `A` non-null in the first 5 rows. -/
def demoTable5 : Table :=
  [ [("Id", .intV 0), ("C", .strV "x"), ("A", .intV 1)]
  , [("Id", .intV 1), ("C", .strV "x"), ("A", .intV 1)]
  , [("Id", .intV 2), ("C", .strV "x"), ("A", .intV 1)]
  , [("Id", .intV 3), ("C", .strV "x"), ("A", .intV 1)]
  , [("Id", .intV 4), ("C", .strV "x"), ("A", .intV 1)]
  , [("Id", .intV 5), ("C", .strV "x")]
  , [("Id", .intV 6), ("C", .strV "x")]
  , [("Id", .intV 7), ("C", .strV "x")]
  , [("Id", .intV 8), ("C", .strV "x")]
  , [("Id", .intV 9), ("C", .strV "x")] ]

/-- A demo suite of 10 constraints of which exactly 3 fail on
`demoTable`: `hasSize 20` (only 10 rows), `isComplete A` (6 nulls) and
`isUnique A` (four duplicate values). -/
def demoChecks : List Constraint :=
  [ .hasSize 5
  , .hasSize 20
  , .isUnique "Id"
  , .isComplete "Id"
  , .isComplete "A"
  , .isNonNegative "Id"
  , .isNonNegative "A"
  , .isUnique "A"
  , .isContainedIn "B" ["x"]
  , .isContainedIn "C" ["x", "y"] ]

/-- C3 — Full-battery evaluation: the engine returns exactly one report
row per declared constraint, each with status `Success` or `Failure`,
with no short-circuit on failure; the three declared suites always yield
26, 12 and 6 rows, and a 10-constraint suite failing 3 checks yields
exactly 10 rows, 3 `Failure` and 7 `Success`. -/
theorem full_battery (level name : String) (t : Table) (cs : List Constraint) :
    (evalCheck level name t cs).length = cs.length ∧
    (∀ r ∈ evalCheck level name t cs,
      r.constraint_status = "Success" ∨ r.constraint_status = "Failure") ∧
    (postsCheck t).length = 26 ∧
    (tagsCheck t).length = 12 ∧
    (postsTagsCheck t).length = 6 ∧
    (evalCheck "Warning" "Demo Check" demoTable demoChecks).length = 10 ∧
    ((evalCheck "Warning" "Demo Check" demoTable demoChecks).filter
      (fun r => r.constraint_status = "Failure")).length = 3 ∧
    ((evalCheck "Warning" "Demo Check" demoTable demoChecks).filter
      (fun r => r.constraint_status = "Success")).length = 7 := by
  refine ⟨by simp [evalCheck], ?_, by simp [postsCheck, evalCheck, postsChecks],
    by simp [tagsCheck, evalCheck, tagsChecks],
    by simp [postsTagsCheck, evalCheck, postsTagsChecks],
    by decide, by decide, by decide⟩
  intro r hr
  rcases List.mem_map.1 hr with ⟨c, _, rfl⟩
  by_cases h : constraintPasses t c <;> simp [evalConstraint, h]

/-- Witness for `full_battery`: one row per constraint on the demo
suite, and a concrete report row whose status is `Success` or
`Failure`. -/
theorem full_battery_witness :
    (evalCheck "Warning" "Demo Check" demoTable demoChecks).length = demoChecks.length ∧
    ((evalConstraint "Warning" "Demo Check" demoTable (.hasSize 5)).constraint_status =
        "Success" ∨
     (evalConstraint "Warning" "Demo Check" demoTable (.hasSize 5)).constraint_status =
        "Failure") :=
  ⟨(full_battery "Warning" "Demo Check" demoTable demoChecks).1,
   (full_battery "Warning" "Demo Check" demoTable demoChecks).2.1
     (evalConstraint "Warning" "Demo Check" demoTable (.hasSize 5)) (by decide)⟩

/-- C4 — Completeness arithmetic: `hasCompleteness(col, ≥ q)` computes
the fraction of non-null values over total rows and succeeds exactly when
the fraction meets the threshold; on a 10-row table with threshold 1/2,
4 non-null values yield `Failure` with the configured message attached,
and 5 non-null values yield `Success`. -/
theorem completeness_arithmetic (t : Table) (c : String) (q : ℚ) (m lv nm : String) :
    (constraintPasses t (.hasCompleteness c q m) = true ↔ completenessFrac t c ≥ q) ∧
    completenessFrac t c = ((nonNullValues t c).length : ℚ) / (t.length : ℚ) ∧
    (t.length = 10 → (nonNullValues t c).length = 4 →
      evalConstraint lv nm t (.hasCompleteness c (1/2) m) =
        ⟨lv, nm, "hasCompleteness(" ++ c ++ ")", "Failure", m⟩) ∧
    (t.length = 10 → (nonNullValues t c).length = 5 →
      evalConstraint lv nm t (.hasCompleteness c (1/2) m) =
        ⟨lv, nm, "hasCompleteness(" ++ c ++ ")", "Success", ""⟩) := by
  refine ⟨by simp [constraintPasses], rfl, ?_, ?_⟩
  · intro h1 h2
    have hfrac : completenessFrac t c = 4 / 10 := by
      rw [completenessFrac, h1, h2]; norm_num
    have hpass : constraintPasses t (.hasCompleteness c (1/2) m) = false := by
      simp only [constraintPasses, hfrac, decide_eq_false_iff_not]
      norm_num
    unfold evalConstraint
    rw [hpass]
    simp [constraintLabel, constraintHint]
  · intro h1 h2
    have hfrac : completenessFrac t c = 5 / 10 := by
      rw [completenessFrac, h1, h2]; norm_num
    have hpass : constraintPasses t (.hasCompleteness c (1/2) m) = true := by
      simp only [constraintPasses, hfrac, decide_eq_true_eq]
      norm_num
    unfold evalConstraint
    rw [hpass]
    simp [constraintLabel, constraintHint]

/-- Witness for `completeness_arithmetic` on the two concrete 10-row
tables with 4 and 5 non-null values in column `A`. -/
theorem completeness_arithmetic_witness :
    evalConstraint "Warning" "Demo Check" demoTable
        (.hasCompleteness "A" (1/2) "It should be above 0.5!") =
      ⟨"Warning", "Demo Check", "hasCompleteness(" ++ "A" ++ ")", "Failure",
        "It should be above 0.5!"⟩ ∧
    evalConstraint "Warning" "Demo Check" demoTable5
        (.hasCompleteness "A" (1/2) "It should be above 0.5!") =
      ⟨"Warning", "Demo Check", "hasCompleteness(" ++ "A" ++ ")", "Success", ""⟩ :=
  ⟨(completeness_arithmetic demoTable "A" (1/2) "It should be above 0.5!"
      "Warning" "Demo Check").2.2.1 (by decide) (by decide),
   (completeness_arithmetic demoTable5 "A" (1/2) "It should be above 0.5!"
      "Warning" "Demo Check").2.2.2 (by decide) (by decide)⟩

example : strContains "<ab>" "<a>" = false := by decide
example : strContains "<a><b>" "<a>" = true := by decide
example : ((4 : ℚ)/10 < 1/2) := by norm_num
example : ((5 : ℚ)/10 ≥ 1/2) := by norm_num
example : ((0.44 : ℚ) = 44/100) := by norm_num
example :
    postsTagsJoin [⟨1, some "<a><b>"⟩] [⟨10, "a"⟩, ⟨11, "b"⟩] =
      [⟨1, 10, "a"⟩, ⟨1, 11, "b"⟩] := by decide
